import Mathlib

/-!
Verification of the RDAT runtime-reflection readers from
`include/dxc/HLSL/DxilRuntimeReflection.h` (namespace `hlsl::DXIL::RDAT`).

The C++ classes are zero-copy readers over a binary blob.  Buffers are
modelled as Lean lists; a C pointer into a buffer is modelled as the buffer
together with an offset (equivalently, the suffix it designates); `uint32_t`
values are modelled as `Nat` holding values below `2 ^ 32`, and the few
places where 32-bit arithmetic is performed carry an explicit `% 2 ^ 32`.
An out-of-bounds read (undefined behaviour in the C++) is modelled by
`List.getD` with a default value; every theorem below that depends on a
read carries bounds hypotheses making the default irrelevant.
-/

/-- The C `UINT_MAX` constant: the maximum representable `uint32_t`,
used by `RuntimeDataFunctionInfo` as the "absent" sentinel row reference. -/
def UINT_MAX : Nat := 2 ^ 32 - 1

/-- The NUL byte terminating C strings in the string table. -/
def nulChar : Char := Char.ofNat 0

/-- A row of the index table, `IndexTableReader::IndexRow`.  The source
stores a pointer `m_values` to the first element of the row and a copy
`m_count` of the row's leading count; the pointer is modelled by the buffer
suffix it points at. -/
structure IndexRow where
  m_values : List Nat
  m_count : Nat
deriving DecidableEq

/-- `IndexRow::Count()`. -/
def IndexRow.Count (row : IndexRow) : Nat := row.m_count

/-- `IndexRow::At(i)`: reads `m_values[i]`. -/
def IndexRow.At (row : IndexRow) (i : Nat) : Nat := row.m_values.getD i 0

/-- `IndexTableReader`: a buffer of `uint32` encoding variable-length rows
`[count, elem0 .. elemCount-1]`, plus the element count of the buffer. -/
structure IndexTableReader where
  m_table : List Nat
  m_size : Nat
deriving DecidableEq

/-- `IndexTableReader::getRow(i)`: builds `IndexRow(&m_table[i] + 1, m_table[i])`.
The pointer `&m_table[i] + 1` is the buffer suffix starting at `i + 1`, and
`m_table[i]` is the read of element `i`. -/
def IndexTableReader.getRow (r : IndexTableReader) (i : Nat) : IndexRow :=
  ⟨r.m_table.drop (i + 1), r.m_table.getD i 0⟩

/-- `StringTableReader`: a byte buffer whose strings are NUL-terminated,
plus its byte size. -/
structure StringTableReader where
  m_table : List Char
  m_size : Nat
deriving DecidableEq

/-- `StringTableReader::Get(offset)`: returns the pointer `m_table + offset`
(no bounds check is performed; the `_Analysis_assume_` in the source is a
static-analysis annotation with no runtime effect).  The pointer is modelled
by the buffer suffix starting at `offset`. -/
def StringTableReader.Get (r : StringTableReader) (offset : Nat) : List Char :=
  r.m_table.drop offset

/-- Reading a returned `const char *` as a C string: the bytes up to (not
including) the first NUL. -/
def cString (l : List Char) : List Char := l.takeWhile (fun c => c ≠ nulChar)





/-- `RuntimeDataResourceInfo`: one fixed-size resource record. -/
structure RuntimeDataResourceInfo where
  Class : Nat
  Kind : Nat
  ID : Nat
  Space : Nat
  LowerBound : Nat
  UpperBound : Nat
  Name : Nat
  Flags : Nat
deriving DecidableEq, Inhabited

/-- Modelled from the spec: the numeric values of `hlsl::DXIL::ResourceClass`
come from `DxilConstants.h`, which is not among the given sources.  The spec
(section 3) fixes the set of classes as CBuffer, Sampler, SRV, UAV; the
concrete numbering follows the DXIL convention `SRV = 0, UAV = 1,
CBuffer = 2, Sampler = 3` (with further values, such as `Invalid = 4`,
representable in the `uint32_t` field but matching none of the four). -/
def ResourceClass.SRV : Nat := 0

/-- Modelled from the spec: see `ResourceClass.SRV`. -/
def ResourceClass.UAV : Nat := 1

/-- Modelled from the spec: see `ResourceClass.SRV`. -/
def ResourceClass.CBuffer : Nat := 2

/-- Modelled from the spec: see `ResourceClass.SRV`. -/
def ResourceClass.Sampler : Nat := 3

/-- `ResourceReader`: a view of one resource record.  The source also stores
a `RuntimeDataContext *` back-pointer, used only by `GetName` to resolve the
name offset through the string table; since the context type refers back to
the tables (a pointer cycle in C++), the context is passed explicitly to the
accessors that need it instead of being stored. -/
structure ResourceReader where
  m_ResourceInfo : RuntimeDataResourceInfo
deriving DecidableEq

/-- `ResourceReader::GetResourceClass()` (as the raw `uint32_t`). -/
def ResourceReader.GetResourceClass (r : ResourceReader) : Nat :=
  r.m_ResourceInfo.Class

/-- `ResourceReader::GetID()`. -/
def ResourceReader.GetID (r : ResourceReader) : Nat := r.m_ResourceInfo.ID

/-- One step of the counting loop in `ResourceTableReader::SetResourceInfo`:
the `if / else if` chain incrementing one of the four per-class counters
`(m_CBufferCount, m_SamplerCount, m_SRVCount, m_UAVCount)`. -/
def classTally (acc : Nat × Nat × Nat × Nat) (cur : RuntimeDataResourceInfo) :
    Nat × Nat × Nat × Nat :=
  if cur.Class = ResourceClass.CBuffer then
    (acc.1 + 1, acc.2.1, acc.2.2.1, acc.2.2.2)
  else if cur.Class = ResourceClass.Sampler then
    (acc.1, acc.2.1 + 1, acc.2.2.1, acc.2.2.2)
  else if cur.Class = ResourceClass.SRV then
    (acc.1, acc.2.1, acc.2.2.1 + 1, acc.2.2.2)
  else if cur.Class = ResourceClass.UAV then
    (acc.1, acc.2.1, acc.2.2.1, acc.2.2.2 + 1)
  else acc

/-- `ResourceTableReader`: the resource record array plus the four per-class
counters.  The `RuntimeDataContext *` member is modelled as in
`ResourceReader` (it is only forwarded to the views this reader constructs). -/
structure ResourceTableReader where
  m_ResourceInfo : List RuntimeDataResourceInfo
  m_CBufferCount : Nat
  m_SamplerCount : Nat
  m_SRVCount : Nat
  m_UAVCount : Nat
deriving DecidableEq

/-- `ResourceTableReader::SetResourceInfo(ptr, count)`: stores the record
array, zeroes the four counters, and tallies the class of each of the first
`count` records (the loop reads `ptr[0] .. ptr[count-1]`; reading past the
array is undefined behaviour in C++, modelled here by `take`). -/
def ResourceTableReader.SetResourceInfo (r : ResourceTableReader)
    (ptr : List RuntimeDataResourceInfo) (count : Nat) : ResourceTableReader :=
  let t := (ptr.take count).foldl classTally (0, 0, 0, 0)
  { m_ResourceInfo := ptr, m_CBufferCount := t.1, m_SamplerCount := t.2.1,
    m_SRVCount := t.2.2.1, m_UAVCount := t.2.2.2 }

/-- `ResourceTableReader::GetNumResources()`: the 32-bit sum of the four
per-class counters. -/
def ResourceTableReader.GetNumResources (r : ResourceTableReader) : Nat :=
  (r.m_CBufferCount + r.m_SamplerCount + r.m_SRVCount + r.m_UAVCount) % 2 ^ 32

/-- `ResourceTableReader::GetItem(i)`: a view of `m_ResourceInfo[i]`; no
runtime bounds check (`_Analysis_assume_` is static-analysis only). -/
def ResourceTableReader.GetItem (r : ResourceTableReader) (i : Nat) :
    ResourceReader :=
  ⟨r.m_ResourceInfo.getD i default⟩

/-- `ResourceTableReader::GetNumCBuffers()`. -/
def ResourceTableReader.GetNumCBuffers (r : ResourceTableReader) : Nat :=
  r.m_CBufferCount

/-- `ResourceTableReader::GetCBuffer(i)`: a view of `m_ResourceInfo[i]`. -/
def ResourceTableReader.GetCBuffer (r : ResourceTableReader) (i : Nat) :
    ResourceReader :=
  ⟨r.m_ResourceInfo.getD i default⟩

/-- `ResourceTableReader::GetNumSamplers()`. -/
def ResourceTableReader.GetNumSamplers (r : ResourceTableReader) : Nat :=
  r.m_SamplerCount

/-- `ResourceTableReader::GetSampler(i)`: a view of
`m_ResourceInfo[m_CBufferCount + i]`, the offset computed in `uint32_t`. -/
def ResourceTableReader.GetSampler (r : ResourceTableReader) (i : Nat) :
    ResourceReader :=
  let offset := (r.m_CBufferCount + i) % 2 ^ 32
  ⟨r.m_ResourceInfo.getD offset default⟩

/-- `ResourceTableReader::GetNumSRVs()`. -/
def ResourceTableReader.GetNumSRVs (r : ResourceTableReader) : Nat :=
  r.m_SRVCount

/-- `ResourceTableReader::GetSRV(i)`: a view of
`m_ResourceInfo[m_CBufferCount + m_SamplerCount + i]`. -/
def ResourceTableReader.GetSRV (r : ResourceTableReader) (i : Nat) :
    ResourceReader :=
  let offset := (r.m_CBufferCount + r.m_SamplerCount + i) % 2 ^ 32
  ⟨r.m_ResourceInfo.getD offset default⟩

/-- `ResourceTableReader::GetNumUAVs()`. -/
def ResourceTableReader.GetNumUAVs (r : ResourceTableReader) : Nat :=
  r.m_UAVCount

/-- `ResourceTableReader::GetUAV(i)`: a view of
`m_ResourceInfo[m_CBufferCount + m_SamplerCount + m_SRVCount + i]`. -/
def ResourceTableReader.GetUAV (r : ResourceTableReader) (i : Nat) :
    ResourceReader :=
  let offset :=
    (r.m_CBufferCount + r.m_SamplerCount + r.m_SRVCount + i) % 2 ^ 32
  ⟨r.m_ResourceInfo.getD offset default⟩

/-- `RuntimeDataFunctionInfo`: one fixed-size function record. -/
structure RuntimeDataFunctionInfo where
  Name : Nat
  UnmangledName : Nat
  Resources : Nat
  FunctionDependencies : Nat
  ShaderKind : Nat
  PayloadSizeInBytes : Nat
  AttributeSizeInBytes : Nat
  FeatureInfo1 : Nat
  FeatureInfo2 : Nat
  ShaderStageFlag : Nat
  MinShaderTarget : Nat
deriving DecidableEq, Inhabited

/-- `RuntimeDataContext`: the bundle of table readers every view receives.
The source also carries a `FunctionTableReader *`, which no accessor in the
header ever dereferences; it is omitted because including it would make the
type recursive (in C++ the cycle goes through raw pointers). -/
structure RuntimeDataContext where
  pStringTableReader : StringTableReader
  pIndexTableReader : IndexTableReader
  pResourceTableReader : ResourceTableReader
deriving DecidableEq

/-- `FunctionReader`: a view of one function record plus the resolution
context. -/
structure FunctionReader where
  m_RuntimeDataFunctionInfo : RuntimeDataFunctionInfo
  m_Context : RuntimeDataContext
deriving DecidableEq

/-- `FunctionReader::GetName()`: resolves the name offset through the
context's string table. -/
def FunctionReader.GetName (f : FunctionReader) : List Char :=
  f.m_Context.pStringTableReader.Get f.m_RuntimeDataFunctionInfo.Name

/-- `FunctionReader::GetUnmangledName()`. -/
def FunctionReader.GetUnmangledName (f : FunctionReader) : List Char :=
  f.m_Context.pStringTableReader.Get f.m_RuntimeDataFunctionInfo.UnmangledName

/-- `FunctionReader::GetFeatureFlag()`: `(uint64)FeatureInfo2 << 32`
or-ed with `(uint64)FeatureInfo1`.  For `uint32_t` field values the result
fits in 64 bits, so no truncation occurs. -/
def FunctionReader.GetFeatureFlag (f : FunctionReader) : Nat :=
  let flag := f.m_RuntimeDataFunctionInfo.FeatureInfo2 <<< 32
  flag ||| f.m_RuntimeDataFunctionInfo.FeatureInfo1

/-- `FunctionReader::GetFeatureInfo1()`. -/
def FunctionReader.GetFeatureInfo1 (f : FunctionReader) : Nat :=
  f.m_RuntimeDataFunctionInfo.FeatureInfo1

/-- `FunctionReader::GetFeatureInfo2()`. -/
def FunctionReader.GetFeatureInfo2 (f : FunctionReader) : Nat :=
  f.m_RuntimeDataFunctionInfo.FeatureInfo2

/-- `FunctionReader::GetShaderStageFlag()`. -/
def FunctionReader.GetShaderStageFlag (f : FunctionReader) : Nat :=
  f.m_RuntimeDataFunctionInfo.ShaderStageFlag

/-- `FunctionReader::GetMinShaderTarget()`. -/
def FunctionReader.GetMinShaderTarget (f : FunctionReader) : Nat :=
  f.m_RuntimeDataFunctionInfo.MinShaderTarget

/-- `FunctionReader::GetNumResources()`: 0 when the `Resources` row
reference is the `UINT_MAX` sentinel, otherwise the count of the referenced
index-table row. -/
def FunctionReader.GetNumResources (f : FunctionReader) : Nat :=
  if f.m_RuntimeDataFunctionInfo.Resources = UINT_MAX then 0
  else
    (f.m_Context.pIndexTableReader.getRow
      f.m_RuntimeDataFunctionInfo.Resources).Count

/-- `FunctionReader::GetResource(i)`: reads element `i` of the `Resources`
index row and resolves it as a record index through the resource table. -/
def FunctionReader.GetResource (f : FunctionReader) (i : Nat) :
    ResourceReader :=
  let resIndex :=
    (f.m_Context.pIndexTableReader.getRow
      f.m_RuntimeDataFunctionInfo.Resources).At i
  f.m_Context.pResourceTableReader.GetItem resIndex

/-- `FunctionReader::GetNumDependencies()`: 0 when the
`FunctionDependencies` row reference is the `UINT_MAX` sentinel, otherwise
the count of the referenced index-table row. -/
def FunctionReader.GetNumDependencies (f : FunctionReader) : Nat :=
  if f.m_RuntimeDataFunctionInfo.FunctionDependencies = UINT_MAX then 0
  else
    (f.m_Context.pIndexTableReader.getRow
      f.m_RuntimeDataFunctionInfo.FunctionDependencies).Count

/-- `FunctionReader::GetDependency(i)`: reads element `i` of the
`FunctionDependencies` index row and resolves it as a byte offset through
the string table. -/
def FunctionReader.GetDependency (f : FunctionReader) (i : Nat) : List Char :=
  let resIndex :=
    (f.m_Context.pIndexTableReader.getRow
      f.m_RuntimeDataFunctionInfo.FunctionDependencies).At i
  f.m_Context.pStringTableReader.Get resIndex

/-- `FunctionReader::GetPayloadSizeInBytes()`. -/
def FunctionReader.GetPayloadSizeInBytes (f : FunctionReader) : Nat :=
  f.m_RuntimeDataFunctionInfo.PayloadSizeInBytes

/-- `FunctionReader::GetAttributeSizeInBytes()`. -/
def FunctionReader.GetAttributeSizeInBytes (f : FunctionReader) : Nat :=
  f.m_RuntimeDataFunctionInfo.AttributeSizeInBytes

/-- `FunctionReader::GetParameterSizeInBytes()`: reads the same
`PayloadSizeInBytes` field as `GetPayloadSizeInBytes` (payload for hit
shaders and parameters for call shaders are mutually exclusive by producer
convention). -/
def FunctionReader.GetParameterSizeInBytes (f : FunctionReader) : Nat :=
  f.m_RuntimeDataFunctionInfo.PayloadSizeInBytes

/-- `FunctionReader::GetShaderKind()` (as the raw `uint32_t`). -/
def FunctionReader.GetShaderKind (f : FunctionReader) : Nat :=
  f.m_RuntimeDataFunctionInfo.ShaderKind

/-- `FunctionTableReader`: the function record array, its record count, and
the resolution context. -/
structure FunctionTableReader where
  m_infos : List RuntimeDataFunctionInfo
  m_count : Nat
  m_context : RuntimeDataContext
deriving DecidableEq

/-- `FunctionTableReader::GetItem(i)`: a view of `m_infos[i]`; no runtime
bounds check is performed. -/
def FunctionTableReader.GetItem (t : FunctionTableReader) (i : Nat) :
    FunctionReader :=
  ⟨t.m_infos.getD i default, t.m_context⟩

/-- `FunctionTableReader::GetNumFunctions()`. -/
def FunctionTableReader.GetNumFunctions (t : FunctionTableReader) : Nat :=
  t.m_count

/-- A record whose `Class` is one of the four tallied resource classes. -/
def isKnownResourceClass (rec : RuntimeDataResourceInfo) : Bool :=
  decide (rec.Class = ResourceClass.CBuffer ∨ rec.Class = ResourceClass.Sampler
    ∨ rec.Class = ResourceClass.SRV ∨ rec.Class = ResourceClass.UAV)

/-- Sample index table used by the concrete witnesses below: the buffer
`[1, 0, 1, 0]` holds a row at offset 0 (count 1, element 0) and a row at
offset 2 (count 1, element 0). -/
def sampleIndexTable : IndexTableReader := ⟨[1, 0, 1, 0], 4⟩

/-- Sample string table: two NUL-terminated strings. -/
def sampleStrings : StringTableReader := ⟨['a', nulChar, 'b', nulChar], 4⟩

/-- Sample resource record (a CBuffer). -/
def sampleResInfo : RuntimeDataResourceInfo := ⟨2, 0, 0, 0, 0, 0, 0, 0⟩

/-- Sample resource table holding the one record above. -/
def sampleResTable : ResourceTableReader := ⟨[sampleResInfo], 1, 0, 0, 0⟩

/-- Sample resolution context over the sample tables. -/
def sampleContext : RuntimeDataContext :=
  ⟨sampleStrings, sampleIndexTable, sampleResTable⟩

/-- A second context whose index table differs from that of `sampleContext`,
used to witness that sentinel accessors do not consult the index table. -/
def sampleContext2 : RuntimeDataContext :=
  ⟨⟨['x', nulChar], 2⟩, ⟨[7, 7], 2⟩, ⟨[], 0, 0, 0, 0⟩⟩

/-- Function record with both row references set to the absent sentinel. -/
def sampleFnSentinel : RuntimeDataFunctionInfo :=
  ⟨0, 0, UINT_MAX, UINT_MAX, 0, 0, 0, 0, 0, 0, 0⟩

/-- Function record referencing the index row at offset 0 for resources and
the row at offset 2 for dependencies. -/
def sampleFn : RuntimeDataFunctionInfo := ⟨0, 0, 0, 2, 0, 0, 0, 0, 0, 0, 0⟩

/-- Sample record array with the class distribution 2 CBuffer, 1 Sampler,
3 SRV, 1 UAV from the round-trip example in the spec (classes are grouped
in the order CBuffer, Sampler, SRV, UAV; records are told apart by `ID`). -/
def sampleResList : List RuntimeDataResourceInfo :=
  [⟨2, 0, 0, 0, 0, 0, 0, 0⟩, ⟨2, 0, 1, 0, 0, 0, 0, 0⟩,
   ⟨3, 0, 0, 0, 0, 0, 0, 0⟩,
   ⟨0, 0, 0, 0, 0, 0, 0, 0⟩, ⟨0, 0, 1, 0, 0, 0, 0, 0⟩, ⟨0, 0, 2, 0, 0, 0, 0, 0⟩,
   ⟨1, 0, 0, 0, 0, 0, 0, 0⟩]

/-- The reader built over `sampleResList` by the construction scan. -/
def sampleResReader : ResourceTableReader :=
  (ResourceTableReader.mk [] 0 0 0 0).SetResourceInfo sampleResList 7

/-- Sample string-table buffer for the string-table witness. -/
def sampleStrTable : List Char := ['h', 'i', nulChar, 'x', nulChar]

/-- Indexing a dropped list reads the underlying list at the shifted index.
This also holds out of range, where both sides are the default. -/
theorem getD_drop_eq {α : Type} (l : List α) (n i : Nat) (d : α) :
    (l.drop n).getD i d = l.getD (n + i) d := by
  induction l generalizing n with
  | nil => simp
  | cons x xs ih =>
    cases n with
    | zero => simp
    | succ m =>
      have e : m + 1 + i = (m + i) + 1 := by omega
      rw [List.drop_succ_cons, e, List.getD_cons_succ]
      exact ih m

/-- An in-range `getD` is a member of the list. -/
theorem getD_mem_of_lt {α : Type} (l : List α) (n : Nat) (d : α)
    (h : n < l.length) : l.getD n d ∈ l := by
  induction l generalizing n with
  | nil => simp at h
  | cons x xs ih =>
    cases n with
    | zero => simp
    | succ m =>
      rw [List.getD_cons_succ]
      exact List.mem_cons_of_mem x (ih m (by simpa using h))

/-- `takeWhile` returns a prefix: it equals `take` of its own length. -/
theorem takeWhile_is_take {α : Type} (p : α → Bool) (l : List α) :
    l.takeWhile p = l.take (l.takeWhile p).length := by
  induction l with
  | nil => simp
  | cons x xs ih =>
    by_cases hp : p x
    · rw [List.takeWhile_cons_of_pos hp, List.length_cons, List.take_succ_cons, ← ih]
    · rw [List.takeWhile_cons_of_neg (by simpa using hp)]
      simp

/-- For a buffer containing a NUL, scanning up to the first NUL stops strictly
inside the buffer, on a NUL byte, and every scanned byte is non-NUL. -/
theorem takeWhile_nul_spec (l : List Char) (hmem : nulChar ∈ l) :
    (l.takeWhile (fun c => c ≠ nulChar)).length < l.length
    ∧ l.getD (l.takeWhile (fun c => c ≠ nulChar)).length nulChar = nulChar
    ∧ ∀ c ∈ l.takeWhile (fun c => c ≠ nulChar), c ≠ nulChar := by
  induction l with
  | nil => cases hmem
  | cons x xs ih =>
    by_cases hx : x = nulChar
    · subst hx
      rw [List.takeWhile_cons_of_neg (by simp)]
      refine ⟨by simp, by simp, by simp⟩
    · rw [List.takeWhile_cons_of_pos (by simpa using hx)]
      have hmem' : nulChar ∈ xs := by
        rcases List.mem_cons.mp hmem with h | h
        · exact absurd h.symm hx
        · exact h
      obtain ⟨h1, h2, h3⟩ := ih hmem'
      refine ⟨by simpa using h1, by simpa using h2, ?_⟩
      intro c hc
      rcases List.mem_cons.mp hc with h | h
      · exact h ▸ hx
      · exact h3 c h

/-- The four counters of the `SetResourceInfo` loop sum to the number of
records whose class is one of the four tallied classes. -/
theorem classTally_foldl_sum (l : List RuntimeDataResourceInfo) :
    ∀ acc : Nat × Nat × Nat × Nat,
      (l.foldl classTally acc).1 + (l.foldl classTally acc).2.1
        + (l.foldl classTally acc).2.2.1 + (l.foldl classTally acc).2.2.2
      = acc.1 + acc.2.1 + acc.2.2.1 + acc.2.2.2
        + l.countP isKnownResourceClass := by
  induction l with
  | nil => intro acc; simp
  | cons x xs ih =>
    intro acc
    rw [List.foldl_cons, List.countP_cons, ih (classTally acc x)]
    have hstep : (classTally acc x).1 + (classTally acc x).2.1
        + (classTally acc x).2.2.1 + (classTally acc x).2.2.2
        = acc.1 + acc.2.1 + acc.2.2.1 + acc.2.2.2
          + (if isKnownResourceClass x then 1 else 0) := by
      unfold classTally isKnownResourceClass
      split_ifs with h1 h2 h3 h4 <;> simp_all <;> omega
    omega


/-- For any reader state, `GetSampler` reads the record at
`m_CBufferCount + i` whenever that offset does not wrap in 32 bits. -/
theorem GetSampler_eq_GetItem (R : ResourceTableReader) (i : Nat)
    (hlt : R.m_CBufferCount + i < 2 ^ 32) :
    R.GetSampler i = R.GetItem (R.m_CBufferCount + i) := by
  show (⟨R.m_ResourceInfo.getD ((R.m_CBufferCount + i) % 2 ^ 32) default⟩ :
      ResourceReader) = ⟨R.m_ResourceInfo.getD (R.m_CBufferCount + i) default⟩
  rw [Nat.mod_eq_of_lt hlt]

/-- For any reader state, `GetSRV` reads the record at
`m_CBufferCount + m_SamplerCount + i` whenever that offset does not wrap. -/
theorem GetSRV_eq_GetItem (R : ResourceTableReader) (i : Nat)
    (hlt : R.m_CBufferCount + R.m_SamplerCount + i < 2 ^ 32) :
    R.GetSRV i = R.GetItem (R.m_CBufferCount + R.m_SamplerCount + i) := by
  show (⟨R.m_ResourceInfo.getD
      ((R.m_CBufferCount + R.m_SamplerCount + i) % 2 ^ 32) default⟩ :
      ResourceReader)
    = ⟨R.m_ResourceInfo.getD (R.m_CBufferCount + R.m_SamplerCount + i) default⟩
  rw [Nat.mod_eq_of_lt hlt]

/-- For any reader state, `GetUAV` reads the record at
`m_CBufferCount + m_SamplerCount + m_SRVCount + i` whenever that offset
does not wrap. -/
theorem GetUAV_eq_GetItem (R : ResourceTableReader) (i : Nat)
    (hlt : R.m_CBufferCount + R.m_SamplerCount + R.m_SRVCount + i < 2 ^ 32) :
    R.GetUAV i
      = R.GetItem (R.m_CBufferCount + R.m_SamplerCount + R.m_SRVCount + i) := by
  show (⟨R.m_ResourceInfo.getD
      ((R.m_CBufferCount + R.m_SamplerCount + R.m_SRVCount + i) % 2 ^ 32)
      default⟩ : ResourceReader)
    = ⟨R.m_ResourceInfo.getD
        (R.m_CBufferCount + R.m_SamplerCount + R.m_SRVCount + i) default⟩
  rw [Nat.mod_eq_of_lt hlt]

/-- C1: for every index table `t` and row reference `r` with
`r + 1 + t[r] ≤ t.length`, `getRow r` yields a row whose `Count` is `t[r]`
and whose `At i` is `t[r + 1 + i]` for every `i < t[r]`; a row is thus a
function of its own offset only, so overlapping rows decode independently. -/
theorem claim_C1 (t : List Nat) (r i : Nat)
    (hrow : r + 1 + t.getD r 0 ≤ t.length) (hi : i < t.getD r 0) :
    ((IndexTableReader.mk t t.length).getRow r).Count = t.getD r 0
    ∧ ((IndexTableReader.mk t t.length).getRow r).At i
        = t.getD (r + 1 + i) 0 := by
  refine ⟨rfl, ?_⟩
  show (t.drop (r + 1)).getD i 0 = t.getD (r + 1 + i) 0
  exact getD_drop_eq t (r + 1) i 0

/-- Witness for C1, at the overlapping-rows example from the spec: in the
table `[3, 5, 1, 9]`, the row at offset 0 is `{count 3, [5, 1, 9]}` and the
row at offset 2 is `{count 1, [9]}`, sharing the final element. -/
theorem claim_C1_witness :
    (0 + 1 + ([3, 5, 1, 9] : List Nat).getD 0 0 ≤ ([3, 5, 1, 9] : List Nat).length
      ∧ 2 < ([3, 5, 1, 9] : List Nat).getD 0 0
      ∧ 2 + 1 + ([3, 5, 1, 9] : List Nat).getD 2 0 ≤ ([3, 5, 1, 9] : List Nat).length
      ∧ 0 < ([3, 5, 1, 9] : List Nat).getD 2 0)
    ∧ (((IndexTableReader.mk [3, 5, 1, 9]
          ([3, 5, 1, 9] : List Nat).length).getRow 0).Count
          = ([3, 5, 1, 9] : List Nat).getD 0 0
        ∧ ((IndexTableReader.mk [3, 5, 1, 9]
            ([3, 5, 1, 9] : List Nat).length).getRow 0).At 2
          = ([3, 5, 1, 9] : List Nat).getD (0 + 1 + 2) 0)
    ∧ (((IndexTableReader.mk [3, 5, 1, 9]
          ([3, 5, 1, 9] : List Nat).length).getRow 2).Count
          = ([3, 5, 1, 9] : List Nat).getD 2 0
        ∧ ((IndexTableReader.mk [3, 5, 1, 9]
            ([3, 5, 1, 9] : List Nat).length).getRow 2).At 0
          = ([3, 5, 1, 9] : List Nat).getD (2 + 1 + 0) 0) :=
  ⟨by decide, claim_C1 [3, 5, 1, 9] 0 2 (by decide) (by decide),
    claim_C1 [3, 5, 1, 9] 2 0 (by decide) (by decide)⟩

/-- C8: `GetPayloadSizeInBytes` and `GetParameterSizeInBytes` return the
same value, both reading the single stored `PayloadSizeInBytes` field. -/
theorem claim_C8 (info : RuntimeDataFunctionInfo) (ctx : RuntimeDataContext) :
    (FunctionReader.mk info ctx).GetPayloadSizeInBytes
        = (FunctionReader.mk info ctx).GetParameterSizeInBytes
    ∧ (FunctionReader.mk info ctx).GetPayloadSizeInBytes
        = info.PayloadSizeInBytes
    ∧ (FunctionReader.mk info ctx).GetParameterSizeInBytes
        = info.PayloadSizeInBytes :=
  ⟨rfl, rfl, rfl⟩

/-- C9: `SetResourceInfo` resets all four counters before tallying, so the
resulting reader state is a pure function of `(ptr, count)`, independent of
the prior state, and calling it twice with the same arguments equals
calling it once. -/
theorem claim_C9 (r1 r2 : ResourceTableReader)
    (ptr : List RuntimeDataResourceInfo) (count : Nat) :
    r1.SetResourceInfo ptr count = r2.SetResourceInfo ptr count
    ∧ (r1.SetResourceInfo ptr count).SetResourceInfo ptr count
        = r1.SetResourceInfo ptr count
    ∧ (r1.SetResourceInfo ptr count).GetNumResources
        = (r2.SetResourceInfo ptr count).GetNumResources
    ∧ (r1.SetResourceInfo ptr count).GetNumCBuffers
        = (r2.SetResourceInfo ptr count).GetNumCBuffers
    ∧ (r1.SetResourceInfo ptr count).GetNumSamplers
        = (r2.SetResourceInfo ptr count).GetNumSamplers
    ∧ (r1.SetResourceInfo ptr count).GetNumSRVs
        = (r2.SetResourceInfo ptr count).GetNumSRVs
    ∧ (r1.SetResourceInfo ptr count).GetNumUAVs
        = (r2.SetResourceInfo ptr count).GetNumUAVs :=
  ⟨rfl, rfl, rfl, rfl, rfl, rfl, rfl⟩

/-- C10: none of the table item accessors performs a runtime bounds check:
for every index, `ResourceTableReader::GetItem` and
`FunctionTableReader::GetItem` return the view of slot `i` without
consulting any stored count, and `StringTableReader::Get` returns
base-plus-offset without consulting the stored size; the results are
invariant under arbitrary changes of the stored counts and sizes. -/
theorem claim_C10 :
    (∀ (resinfo : List RuntimeDataResourceInfo) (c1 s1 v1 u1 c2 s2 v2 u2 i : Nat),
      (ResourceTableReader.mk resinfo c1 s1 v1 u1).GetItem i
          = (ResourceTableReader.mk resinfo c2 s2 v2 u2).GetItem i
        ∧ (ResourceTableReader.mk resinfo c1 s1 v1 u1).GetItem i
          = ResourceReader.mk (resinfo.getD i default))
    ∧ (∀ (infos : List RuntimeDataFunctionInfo) (n1 n2 : Nat)
        (ctx : RuntimeDataContext) (i : Nat),
      (FunctionTableReader.mk infos n1 ctx).GetItem i
          = (FunctionTableReader.mk infos n2 ctx).GetItem i
        ∧ (FunctionTableReader.mk infos n1 ctx).GetItem i
          = FunctionReader.mk (infos.getD i default) ctx)
    ∧ (∀ (table : List Char) (sz1 sz2 offset : Nat),
      (StringTableReader.mk table sz1).Get offset
          = (StringTableReader.mk table sz2).Get offset
        ∧ (StringTableReader.mk table sz1).Get offset = table.drop offset) :=
  ⟨fun _ _ _ _ _ _ _ _ _ _ => ⟨rfl, rfl⟩,
    fun _ _ _ _ _ => ⟨rfl, rfl⟩,
    fun _ _ _ _ => ⟨rfl, rfl⟩⟩

/-- C4: `FunctionReader::GetNumResources` returns 0 when the `Resources`
row reference is the `UINT_MAX` sentinel — for every index table, so the
table is never consulted — and otherwise returns the referenced row's
count; `GetNumDependencies` behaves symmetrically for
`FunctionDependencies`. -/
theorem claim_C4 (info : RuntimeDataFunctionInfo)
    (ctx ctx' : RuntimeDataContext) :
    (info.Resources = UINT_MAX →
      (FunctionReader.mk info ctx).GetNumResources = 0
      ∧ (FunctionReader.mk info ctx).GetNumResources
          = (FunctionReader.mk info ctx').GetNumResources)
    ∧ (info.Resources ≠ UINT_MAX →
      (FunctionReader.mk info ctx).GetNumResources
          = (ctx.pIndexTableReader.getRow info.Resources).Count)
    ∧ (info.FunctionDependencies = UINT_MAX →
      (FunctionReader.mk info ctx).GetNumDependencies = 0
      ∧ (FunctionReader.mk info ctx).GetNumDependencies
          = (FunctionReader.mk info ctx').GetNumDependencies)
    ∧ (info.FunctionDependencies ≠ UINT_MAX →
      (FunctionReader.mk info ctx).GetNumDependencies
          = (ctx.pIndexTableReader.getRow info.FunctionDependencies).Count) := by
  refine ⟨fun h => ⟨?_, ?_⟩, fun h => ?_, fun h => ⟨?_, ?_⟩, fun h => ?_⟩ <;>
    simp [FunctionReader.GetNumResources, FunctionReader.GetNumDependencies, h]

/-- Witness for C4: a sentinel record yields 0 under two different index
tables, and a non-sentinel record yields the referenced row count. -/
theorem claim_C4_witness :
    (sampleFnSentinel.Resources = UINT_MAX
      ∧ sampleFnSentinel.FunctionDependencies = UINT_MAX
      ∧ sampleFn.Resources ≠ UINT_MAX
      ∧ sampleFn.FunctionDependencies ≠ UINT_MAX)
    ∧ ((FunctionReader.mk sampleFnSentinel sampleContext).GetNumResources = 0
      ∧ (FunctionReader.mk sampleFnSentinel sampleContext).GetNumResources
          = (FunctionReader.mk sampleFnSentinel sampleContext2).GetNumResources)
    ∧ ((FunctionReader.mk sampleFnSentinel sampleContext).GetNumDependencies = 0
      ∧ (FunctionReader.mk sampleFnSentinel sampleContext).GetNumDependencies
          = (FunctionReader.mk sampleFnSentinel sampleContext2).GetNumDependencies)
    ∧ (FunctionReader.mk sampleFn sampleContext).GetNumResources
        = (sampleContext.pIndexTableReader.getRow sampleFn.Resources).Count
    ∧ (FunctionReader.mk sampleFn sampleContext).GetNumDependencies
        = (sampleContext.pIndexTableReader.getRow
            sampleFn.FunctionDependencies).Count :=
  ⟨by decide,
    (claim_C4 sampleFnSentinel sampleContext sampleContext2).1 (by decide),
    (claim_C4 sampleFnSentinel sampleContext sampleContext2).2.2.1 (by decide),
    (claim_C4 sampleFn sampleContext sampleContext2).2.1 (by decide),
    (claim_C4 sampleFn sampleContext sampleContext2).2.2.2 (by decide)⟩

/-- C5: `GetFeatureFlag` combines the two 32-bit halves into the 64-bit
value whose low 32 bits are `FeatureInfo1` and whose high 32 bits are
`FeatureInfo2`. -/
theorem claim_C5 (info : RuntimeDataFunctionInfo) (ctx : RuntimeDataContext)
    (h1 : info.FeatureInfo1 < 2 ^ 32) (h2 : info.FeatureInfo2 < 2 ^ 32) :
    (FunctionReader.mk info ctx).GetFeatureFlag
        = 2 ^ 32 * info.FeatureInfo2 + info.FeatureInfo1
    ∧ (FunctionReader.mk info ctx).GetFeatureFlag % 2 ^ 32 = info.FeatureInfo1
    ∧ (FunctionReader.mk info ctx).GetFeatureFlag / 2 ^ 32 = info.FeatureInfo2
    ∧ (FunctionReader.mk info ctx).GetFeatureFlag < 2 ^ 64 := by
  have hmain : (FunctionReader.mk info ctx).GetFeatureFlag
      = 2 ^ 32 * info.FeatureInfo2 + info.FeatureInfo1 := by
    show info.FeatureInfo2 <<< 32 ||| info.FeatureInfo1 = _
    rw [Nat.shiftLeft_eq, Nat.mul_comm]
    exact (Nat.mul_add_lt_is_or h1 _).symm
  have p32 : (2 : Nat) ^ 32 = 4294967296 := by norm_num
  have p64 : (2 : Nat) ^ 64 = 18446744073709551616 := by norm_num
  refine ⟨hmain, ?_, ?_, ?_⟩
  · rw [hmain, p32]; rw [p32] at h1; omega
  · rw [hmain, p32]; rw [p32] at h1; omega
  · rw [hmain, p32, p64]; rw [p32] at h1 h2; omega

/-- Witness for C5, at the value pair from the spec:
`FeatureInfo1 = 0xFFFFFFFF` and `FeatureInfo2 = 0x1` combine to
`0x1FFFFFFFF`. -/
theorem claim_C5_witness :
    ((⟨0, 0, 0, 0, 0, 0, 0, 4294967295, 1, 0, 0⟩ :
        RuntimeDataFunctionInfo).FeatureInfo1 < 2 ^ 32
      ∧ (⟨0, 0, 0, 0, 0, 0, 0, 4294967295, 1, 0, 0⟩ :
          RuntimeDataFunctionInfo).FeatureInfo2 < 2 ^ 32)
    ∧ ((FunctionReader.mk ⟨0, 0, 0, 0, 0, 0, 0, 4294967295, 1, 0, 0⟩
          sampleContext).GetFeatureFlag
        = 2 ^ 32 * (⟨0, 0, 0, 0, 0, 0, 0, 4294967295, 1, 0, 0⟩ :
            RuntimeDataFunctionInfo).FeatureInfo2
          + (⟨0, 0, 0, 0, 0, 0, 0, 4294967295, 1, 0, 0⟩ :
              RuntimeDataFunctionInfo).FeatureInfo1
      ∧ (FunctionReader.mk ⟨0, 0, 0, 0, 0, 0, 0, 4294967295, 1, 0, 0⟩
            sampleContext).GetFeatureFlag % 2 ^ 32
        = (⟨0, 0, 0, 0, 0, 0, 0, 4294967295, 1, 0, 0⟩ :
            RuntimeDataFunctionInfo).FeatureInfo1
      ∧ (FunctionReader.mk ⟨0, 0, 0, 0, 0, 0, 0, 4294967295, 1, 0, 0⟩
            sampleContext).GetFeatureFlag / 2 ^ 32
        = (⟨0, 0, 0, 0, 0, 0, 0, 4294967295, 1, 0, 0⟩ :
            RuntimeDataFunctionInfo).FeatureInfo2
      ∧ (FunctionReader.mk ⟨0, 0, 0, 0, 0, 0, 0, 4294967295, 1, 0, 0⟩
            sampleContext).GetFeatureFlag < 2 ^ 64)
    ∧ (FunctionReader.mk ⟨0, 0, 0, 0, 0, 0, 0, 4294967295, 1, 0, 0⟩
          sampleContext).GetFeatureFlag = 8589934591 :=
  ⟨⟨by decide, by decide⟩,
    claim_C5 ⟨0, 0, 0, 0, 0, 0, 0, 4294967295, 1, 0, 0⟩ sampleContext
      (by decide) (by decide),
    by decide⟩

/-- C6: with a non-sentinel `Resources` row reference, `GetResource i`
resolves row element `i` (the table element at `Resources + 1 + i`) as a
record index through the resource table, while with a non-sentinel
`FunctionDependencies` row reference, `GetDependency j` resolves row
element `j` as a byte offset through the string table: one row encoding
feeds two different target tables. -/
theorem claim_C6 (info : RuntimeDataFunctionInfo) (ctx : RuntimeDataContext)
    (i j : Nat)
    (hres : info.Resources ≠ UINT_MAX)
    (hdep : info.FunctionDependencies ≠ UINT_MAX)
    (hi : i < (ctx.pIndexTableReader.getRow info.Resources).Count)
    (hj : j < (ctx.pIndexTableReader.getRow info.FunctionDependencies).Count) :
    (FunctionReader.mk info ctx).GetResource i
        = ctx.pResourceTableReader.GetItem
            ((ctx.pIndexTableReader.getRow info.Resources).At i)
    ∧ (ctx.pIndexTableReader.getRow info.Resources).At i
        = ctx.pIndexTableReader.m_table.getD (info.Resources + 1 + i) 0
    ∧ (FunctionReader.mk info ctx).GetDependency j
        = ctx.pStringTableReader.Get
            ((ctx.pIndexTableReader.getRow info.FunctionDependencies).At j)
    ∧ (ctx.pIndexTableReader.getRow info.FunctionDependencies).At j
        = ctx.pIndexTableReader.m_table.getD
            (info.FunctionDependencies + 1 + j) 0 := by
  refine ⟨rfl, ?_, rfl, ?_⟩
  · exact getD_drop_eq ctx.pIndexTableReader.m_table (info.Resources + 1) i 0
  · exact getD_drop_eq ctx.pIndexTableReader.m_table
      (info.FunctionDependencies + 1) j 0

/-- Witness for C6: over the sample context, the function record resolves
its single resource row element through the resource table and its single
dependency row element through the string table. -/
theorem claim_C6_witness :
    (sampleFn.Resources ≠ UINT_MAX
      ∧ sampleFn.FunctionDependencies ≠ UINT_MAX
      ∧ 0 < (sampleContext.pIndexTableReader.getRow sampleFn.Resources).Count
      ∧ 0 < (sampleContext.pIndexTableReader.getRow
              sampleFn.FunctionDependencies).Count)
    ∧ ((FunctionReader.mk sampleFn sampleContext).GetResource 0
          = sampleContext.pResourceTableReader.GetItem
              ((sampleContext.pIndexTableReader.getRow sampleFn.Resources).At 0)
      ∧ (sampleContext.pIndexTableReader.getRow sampleFn.Resources).At 0
          = sampleContext.pIndexTableReader.m_table.getD
              (sampleFn.Resources + 1 + 0) 0
      ∧ (FunctionReader.mk sampleFn sampleContext).GetDependency 0
          = sampleContext.pStringTableReader.Get
              ((sampleContext.pIndexTableReader.getRow
                  sampleFn.FunctionDependencies).At 0)
      ∧ (sampleContext.pIndexTableReader.getRow
            sampleFn.FunctionDependencies).At 0
          = sampleContext.pIndexTableReader.m_table.getD
              (sampleFn.FunctionDependencies + 1 + 0) 0)
    ∧ (FunctionReader.mk sampleFn sampleContext).GetResource 0
        = ResourceReader.mk sampleResInfo :=
  ⟨by decide,
    claim_C6 sampleFn sampleContext 0 0 (by decide) (by decide) (by decide)
      (by decide),
    by decide⟩

/-- C7: for a table whose last byte is NUL and an offset inside the table,
the C string designated by `Get(offset)` is the scan from `offset` up to
the next NUL: it is the prefix of the buffer suffix at `offset`, contains
no NUL, and the byte immediately after it, still inside the table, is NUL. -/
theorem claim_C7 (table : List Char) (offset : Nat)
    (hlast : table.getD (table.length - 1) nulChar = nulChar)
    (hoff : offset < table.length) :
    cString ((StringTableReader.mk table table.length).Get offset)
        = (table.drop offset).takeWhile (fun c => c ≠ nulChar)
    ∧ cString ((StringTableReader.mk table table.length).Get offset)
        = (table.drop offset).take
            (cString ((StringTableReader.mk table table.length).Get
              offset)).length
    ∧ (∀ c ∈ cString ((StringTableReader.mk table table.length).Get offset),
        c ≠ nulChar)
    ∧ offset
        + (cString ((StringTableReader.mk table table.length).Get
            offset)).length < table.length
    ∧ table.getD
        (offset + (cString ((StringTableReader.mk table table.length).Get
            offset)).length) nulChar = nulChar := by
  have hmem : nulChar ∈ table.drop offset := by
    have hidx : table.length - 1 - offset < (table.drop offset).length := by
      rw [List.length_drop]; omega
    have h2 : (table.drop offset).getD (table.length - 1 - offset) nulChar
        = nulChar := by
      rw [getD_drop_eq]
      have e : offset + (table.length - 1 - offset) = table.length - 1 := by
        omega
      rw [e]; exact hlast
    exact h2 ▸ getD_mem_of_lt _ _ _ hidx
  obtain ⟨hlt, hnul, hall⟩ := takeWhile_nul_spec (table.drop offset) hmem
  have hG : cString ((StringTableReader.mk table table.length).Get offset)
      = (table.drop offset).takeWhile (fun c => c ≠ nulChar) := rfl
  have hlen : ((table.drop offset).takeWhile (fun c => c ≠ nulChar)).length
      < table.length - offset := by
    rw [List.length_drop] at hlt; exact hlt
  refine ⟨rfl, ?_, ?_, ?_, ?_⟩
  · rw [hG]; exact takeWhile_is_take _ _
  · rw [hG]; exact hall
  · rw [hG]; omega
  · rw [hG, ← getD_drop_eq]; exact hnul

/-- Witness for C7: over the table "hi\x7b0\x7dx\x7b0\x7d", `Get 0` read as
a C string is exactly the first stored string. -/
theorem claim_C7_witness :
    (sampleStrTable.getD (sampleStrTable.length - 1) nulChar = nulChar
      ∧ 0 < sampleStrTable.length)
    ∧ (cString ((StringTableReader.mk sampleStrTable
          sampleStrTable.length).Get 0)
        = (sampleStrTable.drop 0).takeWhile (fun c => c ≠ nulChar)
      ∧ cString ((StringTableReader.mk sampleStrTable
            sampleStrTable.length).Get 0)
        = (sampleStrTable.drop 0).take
            (cString ((StringTableReader.mk sampleStrTable
              sampleStrTable.length).Get 0)).length
      ∧ (∀ c ∈ cString ((StringTableReader.mk sampleStrTable
            sampleStrTable.length).Get 0), c ≠ nulChar)
      ∧ 0 + (cString ((StringTableReader.mk sampleStrTable
            sampleStrTable.length).Get 0)).length < sampleStrTable.length
      ∧ sampleStrTable.getD
          (0 + (cString ((StringTableReader.mk sampleStrTable
              sampleStrTable.length).Get 0)).length) nulChar = nulChar)
    ∧ cString ((StringTableReader.mk sampleStrTable
          sampleStrTable.length).Get 0) = ['h', 'i'] :=
  ⟨by decide, claim_C7 sampleStrTable 0 (by decide) (by decide), by decide⟩

/-- C2: over a reader built by the construction scan, `GetCBuffer i` reads
the record at index `i`, `GetSampler i` the record at `cCount + i`,
`GetSRV i` the record at `cCount + sCount + i`, and `GetUAV i` the record
at `cCount + sCount + srvCount + i`, each equal to `GetItem` at that
base-plus-i index (the 32-bit offset arithmetic cannot wrap because the
tallied counts sum to at most `count`). -/
theorem claim_C2 (r0 : ResourceTableReader) (ptr : List RuntimeDataResourceInfo)
    (count i : Nat) (hc : count ≤ ptr.length) (h32 : count < 2 ^ 32) :
    (i < (r0.SetResourceInfo ptr count).GetNumCBuffers →
      (r0.SetResourceInfo ptr count).GetCBuffer i
          = (r0.SetResourceInfo ptr count).GetItem i
      ∧ (r0.SetResourceInfo ptr count).GetCBuffer i
          = ResourceReader.mk (ptr.getD i default))
    ∧ (i < (r0.SetResourceInfo ptr count).GetNumSamplers →
      (r0.SetResourceInfo ptr count).GetSampler i
          = (r0.SetResourceInfo ptr count).GetItem
              ((r0.SetResourceInfo ptr count).GetNumCBuffers + i)
      ∧ (r0.SetResourceInfo ptr count).GetSampler i
          = ResourceReader.mk (ptr.getD
              ((r0.SetResourceInfo ptr count).GetNumCBuffers + i) default))
    ∧ (i < (r0.SetResourceInfo ptr count).GetNumSRVs →
      (r0.SetResourceInfo ptr count).GetSRV i
          = (r0.SetResourceInfo ptr count).GetItem
              ((r0.SetResourceInfo ptr count).GetNumCBuffers
                + (r0.SetResourceInfo ptr count).GetNumSamplers + i)
      ∧ (r0.SetResourceInfo ptr count).GetSRV i
          = ResourceReader.mk (ptr.getD
              ((r0.SetResourceInfo ptr count).GetNumCBuffers
                + (r0.SetResourceInfo ptr count).GetNumSamplers + i) default))
    ∧ (i < (r0.SetResourceInfo ptr count).GetNumUAVs →
      (r0.SetResourceInfo ptr count).GetUAV i
          = (r0.SetResourceInfo ptr count).GetItem
              ((r0.SetResourceInfo ptr count).GetNumCBuffers
                + (r0.SetResourceInfo ptr count).GetNumSamplers
                + (r0.SetResourceInfo ptr count).GetNumSRVs + i)
      ∧ (r0.SetResourceInfo ptr count).GetUAV i
          = ResourceReader.mk (ptr.getD
              ((r0.SetResourceInfo ptr count).GetNumCBuffers
                + (r0.SetResourceInfo ptr count).GetNumSamplers
                + (r0.SetResourceInfo ptr count).GetNumSRVs + i) default)) := by
  have hs := classTally_foldl_sum (ptr.take count) (0, 0, 0, 0)
  dsimp only at hs
  simp only [Nat.zero_add] at hs
  have hcl : (ptr.take count).countP isKnownResourceClass
      ≤ (ptr.take count).length := List.countP_le_length isKnownResourceClass
  have hlen : (ptr.take count).length = count := by
    rw [List.length_take]; omega
  have hsum : (r0.SetResourceInfo ptr count).m_CBufferCount
      + (r0.SetResourceInfo ptr count).m_SamplerCount
      + (r0.SetResourceInfo ptr count).m_SRVCount
      + (r0.SetResourceInfo ptr count).m_UAVCount ≤ count := by
    show ((ptr.take count).foldl classTally (0, 0, 0, 0)).1
        + ((ptr.take count).foldl classTally (0, 0, 0, 0)).2.1
        + ((ptr.take count).foldl classTally (0, 0, 0, 0)).2.2.1
        + ((ptr.take count).foldl classTally (0, 0, 0, 0)).2.2.2 ≤ count
    omega
  refine ⟨fun hi => ⟨rfl, rfl⟩, fun hi => ?_, fun hi => ?_, fun hi => ?_⟩
  · have hi' : i < (r0.SetResourceInfo ptr count).m_SamplerCount := hi
    have hlt : (r0.SetResourceInfo ptr count).m_CBufferCount + i < 2 ^ 32 := by
      omega
    exact ⟨GetSampler_eq_GetItem (r0.SetResourceInfo ptr count) i hlt,
      GetSampler_eq_GetItem (r0.SetResourceInfo ptr count) i hlt⟩
  · have hi' : i < (r0.SetResourceInfo ptr count).m_SRVCount := hi
    have hlt : (r0.SetResourceInfo ptr count).m_CBufferCount
        + (r0.SetResourceInfo ptr count).m_SamplerCount + i < 2 ^ 32 := by
      omega
    exact ⟨GetSRV_eq_GetItem (r0.SetResourceInfo ptr count) i hlt,
      GetSRV_eq_GetItem (r0.SetResourceInfo ptr count) i hlt⟩
  · have hi' : i < (r0.SetResourceInfo ptr count).m_UAVCount := hi
    have hlt : (r0.SetResourceInfo ptr count).m_CBufferCount
        + (r0.SetResourceInfo ptr count).m_SamplerCount
        + (r0.SetResourceInfo ptr count).m_SRVCount + i < 2 ^ 32 := by
      omega
    exact ⟨GetUAV_eq_GetItem (r0.SetResourceInfo ptr count) i hlt,
      GetUAV_eq_GetItem (r0.SetResourceInfo ptr count) i hlt⟩

/-- Witness for C2, at the class distribution 2 CBuffer, 1 Sampler, 3 SRV,
1 UAV from the spec: the scan tallies (2, 1, 3, 1) and `GetSRV 0` is the
record at index 3, that is, `GetItem 3`, the first SRV record. -/
theorem claim_C2_witness :
    (7 ≤ sampleResList.length ∧ 7 < 2 ^ 32)
    ∧ ((0 < sampleResReader.GetNumCBuffers →
        sampleResReader.GetCBuffer 0 = sampleResReader.GetItem 0
        ∧ sampleResReader.GetCBuffer 0
            = ResourceReader.mk (sampleResList.getD 0 default))
      ∧ (0 < sampleResReader.GetNumSamplers →
        sampleResReader.GetSampler 0
            = sampleResReader.GetItem (sampleResReader.GetNumCBuffers + 0)
        ∧ sampleResReader.GetSampler 0
            = ResourceReader.mk (sampleResList.getD
                (sampleResReader.GetNumCBuffers + 0) default))
      ∧ (0 < sampleResReader.GetNumSRVs →
        sampleResReader.GetSRV 0
            = sampleResReader.GetItem (sampleResReader.GetNumCBuffers
                + sampleResReader.GetNumSamplers + 0)
        ∧ sampleResReader.GetSRV 0
            = ResourceReader.mk (sampleResList.getD
                (sampleResReader.GetNumCBuffers
                  + sampleResReader.GetNumSamplers + 0) default))
      ∧ (0 < sampleResReader.GetNumUAVs →
        sampleResReader.GetUAV 0
            = sampleResReader.GetItem (sampleResReader.GetNumCBuffers
                + sampleResReader.GetNumSamplers
                + sampleResReader.GetNumSRVs + 0)
        ∧ sampleResReader.GetUAV 0
            = ResourceReader.mk (sampleResList.getD
                (sampleResReader.GetNumCBuffers
                  + sampleResReader.GetNumSamplers
                  + sampleResReader.GetNumSRVs + 0) default)))
    ∧ (sampleResReader.GetNumCBuffers = 2
      ∧ sampleResReader.GetNumSamplers = 1
      ∧ sampleResReader.GetNumSRVs = 3
      ∧ sampleResReader.GetNumUAVs = 1
      ∧ sampleResReader.GetNumResources = 7
      ∧ sampleResReader.GetSRV 0 = sampleResReader.GetItem 3
      ∧ sampleResReader.GetSRV 0
          = ResourceReader.mk ⟨0, 0, 0, 0, 0, 0, 0, 0⟩) :=
  ⟨⟨by decide, by decide⟩,
    claim_C2 (ResourceTableReader.mk [] 0 0 0 0) sampleResList 7 0
      (by decide) (by decide),
    by decide⟩

/-- Counterexample for C3: one record whose `Class` value (4, the DXIL
`Invalid` class) matches none of the four tallied classes is not counted,
so `GetNumResources` is 0, not the record count 1. -/
theorem claim_C3_counterexample :
    ¬ (((ResourceTableReader.mk [] 0 0 0 0).SetResourceInfo
          [⟨4, 0, 0, 0, 0, 0, 0, 0⟩] 1).GetNumResources = 1) := by decide

/-- C3 (amended): after `SetResourceInfo` with `count` records,
`GetNumResources` returns the number of scanned records whose `Class` is
one of the four tallied classes (CBuffer, Sampler, SRV, UAV); it equals
`count` when every scanned record has one of those classes, but not
regardless of the stored `Class` values. -/
theorem claim_C3 (r0 : ResourceTableReader)
    (ptr : List RuntimeDataResourceInfo) (count : Nat)
    (hc : count ≤ ptr.length) (h32 : count < 2 ^ 32) :
    (r0.SetResourceInfo ptr count).GetNumResources
        = (ptr.take count).countP isKnownResourceClass
    ∧ ((∀ rec ∈ ptr.take count, isKnownResourceClass rec) →
        (r0.SetResourceInfo ptr count).GetNumResources = count) := by
  have hs := classTally_foldl_sum (ptr.take count) (0, 0, 0, 0)
  dsimp only at hs
  simp only [Nat.zero_add] at hs
  have hcl : (ptr.take count).countP isKnownResourceClass
      ≤ (ptr.take count).length := List.countP_le_length isKnownResourceClass
  have hlen : (ptr.take count).length = count := by
    rw [List.length_take]; omega
  have hmain : (r0.SetResourceInfo ptr count).GetNumResources
      = (ptr.take count).countP isKnownResourceClass := by
    show (((ptr.take count).foldl classTally (0, 0, 0, 0)).1
        + ((ptr.take count).foldl classTally (0, 0, 0, 0)).2.1
        + ((ptr.take count).foldl classTally (0, 0, 0, 0)).2.2.1
        + ((ptr.take count).foldl classTally (0, 0, 0, 0)).2.2.2) % 2 ^ 32
        = (ptr.take count).countP isKnownResourceClass
    rw [hs]
    exact Nat.mod_eq_of_lt (by omega)
  refine ⟨hmain, fun hall => ?_⟩
  rw [hmain, List.countP_eq_length.mpr hall, hlen]

/-- Witness for the amended C3: of two records with classes CBuffer and 4
(unknown), only the first is tallied, so `GetNumResources` is 1, not 2. -/
theorem claim_C3_witness :
    (2 ≤ ([⟨2, 0, 0, 0, 0, 0, 0, 0⟩, ⟨4, 0, 0, 0, 0, 0, 0, 0⟩] :
        List RuntimeDataResourceInfo).length ∧ 2 < 2 ^ 32)
    ∧ (((ResourceTableReader.mk [] 0 0 0 0).SetResourceInfo
          [⟨2, 0, 0, 0, 0, 0, 0, 0⟩, ⟨4, 0, 0, 0, 0, 0, 0, 0⟩]
          2).GetNumResources
        = (([⟨2, 0, 0, 0, 0, 0, 0, 0⟩, ⟨4, 0, 0, 0, 0, 0, 0, 0⟩] :
            List RuntimeDataResourceInfo).take 2).countP isKnownResourceClass
      ∧ ((∀ rec ∈ ([⟨2, 0, 0, 0, 0, 0, 0, 0⟩, ⟨4, 0, 0, 0, 0, 0, 0, 0⟩] :
            List RuntimeDataResourceInfo).take 2, isKnownResourceClass rec) →
          ((ResourceTableReader.mk [] 0 0 0 0).SetResourceInfo
            [⟨2, 0, 0, 0, 0, 0, 0, 0⟩, ⟨4, 0, 0, 0, 0, 0, 0, 0⟩]
            2).GetNumResources = 2))
    ∧ ((ResourceTableReader.mk [] 0 0 0 0).SetResourceInfo
          [⟨2, 0, 0, 0, 0, 0, 0, 0⟩, ⟨4, 0, 0, 0, 0, 0, 0, 0⟩]
          2).GetNumResources = 1 :=
  ⟨⟨by decide, by decide⟩,
    claim_C3 (ResourceTableReader.mk [] 0 0 0 0)
      [⟨2, 0, 0, 0, 0, 0, 0, 0⟩, ⟨4, 0, 0, 0, 0, 0, 0, 0⟩] 2
      (by decide) (by decide),
    by decide⟩
